import Mathlib

/-!
Verification of the loan decision pipeline of LoanAIAgent-DigitalTwin.

The pipeline (`backend/app/orchestrator.py`) evaluates a loan application
through four deterministic stages: credit scoring, loan decision,
verification, and risk monitoring.  The orchestrator source itself is not
part of this checkout; the stages below are modelled from the specification
together with the constants the repository's own documentation records
(the scoring parameter sheet and the agents guide).
-/

namespace LoanAI

/-- Repayment history counts of an applicant (API schema `repayment_history`). -/
structure RepaymentHistory where
  on_time_payments : Nat
  late_payments : Nat
  defaults : Nat
  write_offs : Nat
  deriving DecidableEq

/-- Employment status enum (`Employed` / `Self-employed` / `Unemployed`). -/
inductive EmploymentStatus where
  | employed
  | selfEmployed
  | unemployed
  deriving DecidableEq

/-- The loan application record, after validation (API schema of the
`/submit_loan_application` endpoint). -/
structure ApplicationRecord where
  applicant_id : String
  full_name : String
  phone_number : String
  email : String
  credit_history_length_months : Nat
  number_of_credit_accounts : Nat
  secured_loans : Nat
  unsecured_loans : Nat
  credit_utilization_percent : Rat
  recent_credit_inquiries_6m : Nat
  repayment : RepaymentHistory
  employment_status : EmploymentStatus
  employment_duration_months : Nat
  monthly_income : Rat
  income_verified : Bool
  loan_amount_requested : Rat
  loan_purpose : String
  loan_tenure_months : Nat
  deriving DecidableEq

/-- Validity invariants of an `ApplicationRecord` (spec §3): counts are
nonnegative by construction (`Nat`), utilization lies in `[0,100]`,
tenure is at least one month, the requested amount is positive and the
monthly income nonnegative. -/
def ValidRecord (r : ApplicationRecord) : Prop :=
  0 ≤ r.credit_utilization_percent ∧ r.credit_utilization_percent ≤ 100 ∧
  1 ≤ r.loan_tenure_months ∧ 0 < r.loan_amount_requested ∧ 0 ≤ r.monthly_income

instance (r : ApplicationRecord) : Decidable (ValidRecord r) := by
  unfold ValidRecord; infer_instance

/-- Credit tier enum. -/
inductive Tier where
  | excellent
  | veryGood
  | good
  | fair
  | poor
  | veryPoor
  deriving DecidableEq

/-- Final decision enum. -/
inductive Decision where
  | approved
  | rejected
  | conditional
  deriving DecidableEq

/-- Verification status enum. -/
inductive VerificationStatus where
  | verified
  | pending
  | failed
  deriving DecidableEq

/-- Risk level enum. -/
inductive RiskLevel where
  | low
  | medium
  | high
  deriving DecidableEq

/-! ## Credit Scoring Stage -/

/-- Total payment count of a repayment history. -/
def totalPayments (h : RepaymentHistory) : Nat :=
  h.on_time_payments + h.late_payments + h.defaults + h.write_offs

/-- Modelled from the spec: the credit-history component of the score,
tiered by history length in months (orchestrator.py is missing; the 84- and
60-month tiers and the `min(months, 30)` cap are the repo's documented
parameter sheet, the intermediate tiers follow the spec's "longer history →
higher score, capped"). -/
def historyScore (months : Nat) : Rat :=
  if 84 ≤ months then 110
  else if 60 ≤ months then 85
  else if 36 ≤ months then 60
  else if 24 ≤ months then 45
  else (min months 30 : Nat)

/-- Modelled from the spec: the payment-history scaling ceiling, dependent
on the total payment count (parameter sheet: 235 points for 40 or more
total payments, 220 for thin files). -/
def maxPaymentScore (total : Nat) : Rat :=
  if 40 ≤ total then 235 else 220

/-- Modelled from the spec: payment-history component, the on-time ratio
scaled by the ceiling; a zero total payment count (new credit) contributes
a neutral 0 instead of dividing by zero. -/
def paymentHistoryScore (h : RepaymentHistory) : Rat :=
  let total := totalPayments h
  if total = 0 then 0
  else (h.on_time_payments : Rat) / (total : Rat) * maxPaymentScore total

/-- Modelled from the spec: late-payment penalty, bucketed by total payment
count (parameter sheet buckets: 70+, 40–69, and under 40 payments; the
documented formulas cover up to four late payments and are extended
linearly beyond). -/
def latePenalty (total late : Nat) : Rat :=
  if 70 ≤ total then
    ((if late ≤ 2 then 12 * late else 24 + (late - 2) * 18 : Nat) : Rat)
  else if 40 ≤ total then
    ((if late ≤ 2 then 10 * late else 20 + (late - 2) * 18 : Nat) : Rat)
  else
    ((if late ≤ 2 then 12 * late else 24 + (late - 2) * 20 : Nat) : Rat)

/-- Credit-utilization component: the step function of the parameter sheet
(best contribution below 10 percent, negative beyond 70 percent). -/
def utilizationScore (u : Rat) : Rat :=
  if u < 10 then 60
  else if u < 30 then 50
  else if u < 50 then 35
  else if u < 60 then 15
  else if u < 70 then 0
  else if u < 85 then -20
  else -40

/-- Modelled from the spec: inquiry penalty proportional to the inquiry
count, capped (agents guide: 0 to 50 points). -/
def inquiryPenalty (inquiries : Nat) : Rat :=
  ((min (5 * inquiries) 50 : Nat) : Rat)

/-- Modelled from the spec: heavy per-default penalty, each additional
default penalized progressively more (exact constants are not in the
checkout; 50, 100, 150, ... per successive default). -/
def defaultPenalty (d : Nat) : Rat :=
  ((25 * d * (d + 1) : Nat) : Rat)

/-- Modelled from the spec: even heavier per-write-off penalty, progressive
(80, 160, 240, ... per successive write-off). -/
def writeOffPenalty (w : Nat) : Rat :=
  ((40 * w * (w + 1) : Nat) : Rat)

/-- Clamp the raw score into the credit-score range `[300, 850]`. -/
def clampScore (s : Rat) : Rat :=
  if s < 300 then 300 else if 850 < s then 850 else s

/-- Modelled from the spec: the additive point model of the Credit Scoring
Stage, base score 390 plus history, payment, and utilization components
minus the late, inquiry, default and write-off penalties, clamped. -/
def rawCreditScore (r : ApplicationRecord) : Rat :=
  390 + historyScore r.credit_history_length_months
      + paymentHistoryScore r.repayment
      - latePenalty (totalPayments r.repayment) r.repayment.late_payments
      + utilizationScore r.credit_utilization_percent
      - inquiryPenalty r.recent_credit_inquiries_6m
      - defaultPenalty r.repayment.defaults
      - writeOffPenalty r.repayment.write_offs

/-- The credit score produced by the Credit Scoring Stage. -/
def creditScore (r : ApplicationRecord) : Rat :=
  clampScore (rawCreditScore r)

/-- Map a score to its tier via the fixed breakpoint table. -/
def creditTier (s : Rat) : Tier :=
  if 750 ≤ s then .excellent
  else if 700 ≤ s then .veryGood
  else if 650 ≤ s then .good
  else if 600 ≤ s then .fair
  else if 550 ≤ s then .poor
  else .veryPoor

/-- Output payload of the Credit Scoring Stage. -/
structure CreditScoringOutput where
  calculated_credit_score : Rat
  credit_tier : Tier
  base_score : Rat
  credit_history_score : Rat
  payment_history_score : Rat
  credit_utilization_score : Rat
  inquiry_pts : Rat
  late_pts : Rat
  default_pts : Rat
  rationale : List String
  deriving DecidableEq

/-- Modelled from the spec: the Credit Scoring Stage, assembling the score,
tier, breakdown and rationale; a zero total payment count is recorded as a
neutral substitution in the rationale rather than raised as an error. -/
def creditScoringStage (r : ApplicationRecord) : CreditScoringOutput :=
  let total := totalPayments r.repayment
  let s := creditScore r
  { calculated_credit_score := s
    credit_tier := creditTier s
    base_score := 390
    credit_history_score := historyScore r.credit_history_length_months
    payment_history_score := paymentHistoryScore r.repayment
    credit_utilization_score := utilizationScore r.credit_utilization_percent
    inquiry_pts := inquiryPenalty r.recent_credit_inquiries_6m
    late_pts := latePenalty total r.repayment.late_payments
    default_pts := defaultPenalty r.repayment.defaults + writeOffPenalty r.repayment.write_offs
    rationale :=
      if total = 0 then ["No payment history; neutral payment score applied"]
      else ["Payment history scored from on-time ratio"] }

/-! ## Loan Decision Stage -/

/-- Output payload of the Loan Decision Stage. -/
structure LoanDecisionOutput where
  final_decision : Decision
  approved_amount : Rat
  interest_rate : Option Rat
  estimated_monthly_emi : Option Rat
  dti : Rat
  conditions : List String
  rejection_reasons : List String
  rationale : String
  deriving DecidableEq

/-- Modelled from the spec: estimated monthly payment of the requested
loan, used for the debt-to-income ratio (requested amount over tenure). -/
def estimatedMonthlyPayment (r : ApplicationRecord) : Rat :=
  r.loan_amount_requested / (r.loan_tenure_months : Rat)

/-- Modelled from the spec: standard amortization formula for the monthly
installment over amount, annual percentage rate, and tenure in months. -/
def amortizedEmi (amount rate : Rat) (n : Nat) : Rat :=
  let m := rate / 1200
  if m = 0 then amount / (n : Rat)
  else amount * m * (1 + m) ^ n / ((1 + m) ^ n - 1)

/-- Modelled from the spec: the Loan Decision Stage (orchestrator.py is
missing).  Zero income short-circuits to rejection with an unverifiable
income reason; otherwise the debt-to-income ratio gates a hard rejection,
unemployment with a large loan rejects, and descending score tiers give
full approval, reduced approval, or conditional approval at a reduced
fraction with explicit conditions; below the low threshold rejects. -/
def loanDecisionStage (r : ApplicationRecord) (score : Rat) : LoanDecisionOutput :=
  if r.monthly_income = 0 then
    { final_decision := .rejected
      approved_amount := 0
      interest_rate := none
      estimated_monthly_emi := none
      dti := 0
      conditions := []
      rejection_reasons := ["Income not verifiable"]
      rationale := "Application rejected: income not verifiable" }
  else
    let dti := estimatedMonthlyPayment r / r.monthly_income
    if 1 / 2 < dti then
      { final_decision := .rejected
        approved_amount := 0
        interest_rate := none
        estimated_monthly_emi := none
        dti := dti
        conditions := []
        rejection_reasons := ["High debt-to-income"]
        rationale := "Application rejected: debt-to-income above the hard ceiling" }
    else if r.employment_status = .unemployed ∧ 10000 < r.loan_amount_requested then
      { final_decision := .rejected
        approved_amount := 0
        interest_rate := none
        estimated_monthly_emi := none
        dti := dti
        conditions := []
        rejection_reasons := ["Employment required for large loan amount"]
        rationale := "Application rejected: unemployed with large loan amount" }
    else if 700 ≤ score ∧ dti < 7 / 20 then
      { final_decision := .approved
        approved_amount := r.loan_amount_requested
        interest_rate := some (17 / 2)
        estimated_monthly_emi := some (amortizedEmi r.loan_amount_requested (17 / 2) r.loan_tenure_months)
        dti := dti
        conditions := ["Income verification required"]
        rejection_reasons := []
        rationale := "Application approved at the full requested amount" }
    else if 650 ≤ score ∧ dti < 9 / 20 then
      { final_decision := .approved
        approved_amount := 4 / 5 * r.loan_amount_requested
        interest_rate := some (21 / 2)
        estimated_monthly_emi := some (amortizedEmi (4 / 5 * r.loan_amount_requested) (21 / 2) r.loan_tenure_months)
        dti := dti
        conditions := ["Income verification required"]
        rejection_reasons := []
        rationale := "Application approved at a reduced amount" }
    else if 550 ≤ score then
      { final_decision := .conditional
        approved_amount := 3 / 5 * r.loan_amount_requested
        interest_rate := some 13
        estimated_monthly_emi := some (amortizedEmi (3 / 5 * r.loan_amount_requested) 13 r.loan_tenure_months)
        dti := dti
        conditions :=
          ["Income verification required",
           "Valid identity documents required",
           "Co-signer or additional collateral may be required"]
        rejection_reasons := []
        rationale := "Application conditionally approved at a reduced amount" }
    else
      { final_decision := .rejected
        approved_amount := 0
        interest_rate := none
        estimated_monthly_emi := none
        dti := dti
        conditions := []
        rejection_reasons := ["Credit score below minimum threshold (550)"]
        rationale := "Application rejected: credit score below the minimum threshold" }

/-! ## Verification Stage -/

/-- Output payload of the Verification Stage. -/
structure VerificationOutput where
  status : VerificationStatus
  verified_fields : List String
  pending_fields : List String
  notes : String
  deriving DecidableEq

/-- Modelled from the spec: basic email shape check. -/
def emailShapeOk (e : String) : Bool := e.contains '@'

/-- Modelled from the spec: basic phone shape check. -/
def phoneShapeOk (p : String) : Bool := decide (7 ≤ p.length)

/-- Modelled from the spec: the checklist-based Verification Stage; each
field passes its format or presence check or is flagged pending, and the
status is verified exactly when nothing is pending. -/
def verificationStage (r : ApplicationRecord) : VerificationOutput :=
  let checks : List (String × Bool) :=
    [("email", emailShapeOk r.email),
     ("phone", phoneShapeOk r.phone_number),
     ("income", r.income_verified),
     ("employment", decide (r.employment_status ≠ .unemployed))]
  let ver := (checks.filter (fun c => c.2)).map (fun c => c.1)
  let pend := (checks.filter (fun c => !c.2)).map (fun c => c.1)
  { status := if pend.isEmpty then .verified else .pending
    verified_fields := ver
    pending_fields := pend
    notes := if pend.isEmpty then "All checks passed" else "Some fields pending verification" }

/-! ## Risk Monitoring Stage -/

/-- Output payload of the Risk Monitoring Stage. -/
structure RiskOutput where
  risk_level : RiskLevel
  risk_score : Nat
  risk_factors : List String
  recommended_actions : List String
  deriving DecidableEq

/-- Map a risk score to a risk level via the fixed breakpoints. -/
def riskLevelOf (s : Nat) : RiskLevel :=
  if s < 30 then .low else if s < 60 then .medium else .high

/-- One additive step of the risk calculation: when the condition holds,
add the increment and record the factor. -/
def riskStep (cond : Prop) [Decidable cond] (inc : Nat) (factor : String)
    (acc : Nat × List String) : Nat × List String :=
  if cond then (acc.1 + inc, acc.2 ++ [factor]) else acc

/-- Modelled from the spec: the Risk Monitoring Stage (agents guide risk
calculation plus the spec's verification-status factor).  The risk score
starts at 0 and is incremented by fixed amounts for a score below the
rejection threshold, utilization above 80 percent, each default, each
write-off (a larger increment), a verification status other than verified,
and a high inquiry count; the score is capped at 100 and mapped to a level
via fixed breakpoints. -/
def riskMonitoringStage (score : Rat) (util : Rat) (h : RepaymentHistory)
    (inquiries : Nat) (v : VerificationStatus) : RiskOutput :=
  let acc0 : Nat × List String := (0, [])
  let acc1 := riskStep (score < 600) 40 "Credit score below 600" acc0
  let acc2 := riskStep (80 < util) 20 "High credit utilization" acc1
  let acc3 := riskStep (0 < h.defaults) (20 * h.defaults) "Payment defaults on record" acc2
  let acc4 := riskStep (0 < h.write_offs) (30 * h.write_offs) "Loan write-offs on record" acc3
  let acc5 := riskStep (v ≠ .verified) 10 "Applicant data not fully verified" acc4
  let acc6 := riskStep (6 < inquiries) 10 "High number of recent inquiries" acc5
  let s := min acc6.1 100
  { risk_level := riskLevelOf s
    risk_score := s
    risk_factors := acc6.2
    recommended_actions :=
      if riskLevelOf s = .high then ["Enhanced monitoring recommended"]
      else ["Periodic review recommended"] }

/-! ## Pipeline orchestration -/

/-- The final aggregate result of an evaluation. -/
structure DecisionResult where
  final_decision : Decision
  approved_amount : Rat
  interest_rate : Option Rat
  credit_score : Rat
  credit_tier : Tier
  risk_level : RiskLevel
  risk_score : Nat
  conditions : List String
  rejection_reasons : List String
  credit_output : CreditScoringOutput
  loan_output : LoanDecisionOutput
  verification_output : VerificationOutput
  risk_output : RiskOutput
  deriving DecidableEq

/-- Modelled from the spec: `evaluate`, the pure pipeline running the four
stages in the fixed order and assembling the DecisionResult; every stage
runs regardless of the decision (no early termination on rejection). -/
def evaluate (r : ApplicationRecord) : DecisionResult :=
  let c := creditScoringStage r
  let l := loanDecisionStage r c.calculated_credit_score
  let v := verificationStage r
  let k := riskMonitoringStage c.calculated_credit_score r.credit_utilization_percent
    r.repayment r.recent_credit_inquiries_6m v.status
  { final_decision := l.final_decision
    approved_amount := l.approved_amount
    interest_rate := l.interest_rate
    credit_score := c.calculated_credit_score
    credit_tier := c.credit_tier
    risk_level := k.risk_level
    risk_score := k.risk_score
    conditions := l.conditions
    rejection_reasons := l.rejection_reasons
    credit_output := c
    loan_output := l
    verification_output := v
    risk_output := k }

/-! ## Concrete records used to instantiate the properties -/

/-- A baseline valid application record. -/
def baseRecord : ApplicationRecord :=
  { applicant_id := "APP001"
    full_name := "Jane Smith"
    phone_number := "+1-555-0200"
    email := "jane.smith@example.com"
    credit_history_length_months := 24
    number_of_credit_accounts := 2
    secured_loans := 0
    unsecured_loans := 2
    credit_utilization_percent := 30
    recent_credit_inquiries_6m := 1
    repayment := { on_time_payments := 20, late_payments := 0, defaults := 0, write_offs := 0 }
    employment_status := .employed
    employment_duration_months := 24
    monthly_income := 4000
    income_verified := true
    loan_amount_requested := 10000
    loan_purpose := "personal"
    loan_tenure_months := 36 }

/-- An extreme positive record: long history, all payments on time, very
low utilization, no inquiries. -/
def extremeGoodRecord : ApplicationRecord :=
  { baseRecord with
    credit_history_length_months := 96
    credit_utilization_percent := 5
    recent_credit_inquiries_6m := 0
    repayment := { on_time_payments := 100, late_payments := 0, defaults := 0, write_offs := 0 } }

/-- An extreme negative record: only defaults and write-offs. -/
def extremeBadRecord : ApplicationRecord :=
  { baseRecord with
    repayment := { on_time_payments := 0, late_payments := 0, defaults := 10, write_offs := 5 } }

/-- A record with 67 on-time and 2 late payments (total 69, mid bucket). -/
def recordOnTime67 : ApplicationRecord :=
  { baseRecord with
    credit_history_length_months := 60
    credit_utilization_percent := 20
    recent_credit_inquiries_6m := 0
    repayment := { on_time_payments := 67, late_payments := 2, defaults := 0, write_offs := 0 } }

/-- The same record with one more on-time payment (total 70, top bucket). -/
def recordOnTime68 : ApplicationRecord :=
  { recordOnTime67 with
    repayment := { on_time_payments := 68, late_payments := 2, defaults := 0, write_offs := 0 } }

/-- A record staying inside the 40–69 total-payment bucket. -/
def recordMidBucket : ApplicationRecord :=
  { baseRecord with
    repayment := { on_time_payments := 50, late_payments := 2, defaults := 0, write_offs := 0 } }

/-- A borderline record landing in the conditional band. -/
def conditionalRecord : ApplicationRecord :=
  { baseRecord with
    credit_history_length_months := 36
    credit_utilization_percent := 40
    recent_credit_inquiries_6m := 2
    repayment := { on_time_payments := 32, late_payments := 3, defaults := 0, write_offs := 0 }
    monthly_income := 3000
    loan_amount_requested := 20000
    loan_tenure_months := 60 }

/-- A record with zero monthly income, all other fields valid. -/
def zeroIncomeRecord : ApplicationRecord :=
  { baseRecord with monthly_income := 0 }

/-- A record with no payment history at all (new credit). -/
def zeroPaymentsRecord : ApplicationRecord :=
  { baseRecord with
    repayment := { on_time_payments := 0, late_payments := 0, defaults := 0, write_offs := 0 } }

/-! ## Helper definitions for the monotonicity analysis -/

/-- The total-payment bucket used by the payment ceiling and the late
penalty (under 40, 40–69, and 70 or more total payments). -/
def paymentBucket (total : Nat) : Nat :=
  if 70 ≤ total then 2 else if 40 ≤ total then 1 else 0

/-- Increase the on-time payment count by `k`, all else fixed. -/
def bumpHistory (h : RepaymentHistory) (k : Nat) : RepaymentHistory :=
  { h with on_time_payments := h.on_time_payments + k }

/-- Increase a record's on-time payment count by `k`, all else fixed. -/
def bumpOnTime (r : ApplicationRecord) (k : Nat) : ApplicationRecord :=
  { r with repayment := bumpHistory r.repayment k }

/-! ## Helper lemmas -/

/-- The clamp function always lands in `[300, 850]`. -/
lemma clampScore_mem (s : Rat) : 300 ≤ clampScore s ∧ clampScore s ≤ 850 := by
  unfold clampScore
  split_ifs with h1 h2 <;> constructor <;> linarith

/-- The clamp function is monotone. -/
lemma clampScore_mono {a b : Rat} (h : a ≤ b) : clampScore a ≤ clampScore b := by
  unfold clampScore
  split_ifs with h1 h2 h3 h4 h5 <;> linarith

/-- Equal buckets decide the two branch conditions identically. -/
lemma bucket_eq_branches {t1 t2 : Nat} (h : paymentBucket t1 = paymentBucket t2) :
    ((70 ≤ t1) ↔ (70 ≤ t2)) ∧ ((40 ≤ t1) ↔ (40 ≤ t2)) := by
  unfold paymentBucket at h
  split_ifs at h <;> omega

/-- Equal buckets give the same payment-score ceiling. -/
lemma maxPaymentScore_congr {t1 t2 : Nat} (h : paymentBucket t1 = paymentBucket t2) :
    maxPaymentScore t1 = maxPaymentScore t2 := by
  obtain ⟨h70, h40⟩ := bucket_eq_branches h
  unfold maxPaymentScore
  split_ifs <;> first | rfl | tauto

/-- Equal buckets give the same late penalty. -/
lemma latePenalty_congr {t1 t2 : Nat} (h : paymentBucket t1 = paymentBucket t2)
    (late : Nat) : latePenalty t1 late = latePenalty t2 late := by
  obtain ⟨h70, h40⟩ := bucket_eq_branches h
  unfold latePenalty
  split_ifs <;> first | rfl | tauto

/-- Bumping the on-time count adds `k` to the total. -/
lemma totalPayments_bump (h : RepaymentHistory) (k : Nat) :
    totalPayments (bumpHistory h k) = totalPayments h + k := by
  simp only [totalPayments, bumpHistory]
  omega

/-- The payment-score ceiling is nonnegative. -/
lemma maxPaymentScore_nonneg (t : Nat) : 0 ≤ maxPaymentScore t := by
  unfold maxPaymentScore
  split_ifs <;> norm_num

/-- Within a fixed total-payment bucket, more on-time payments never
decrease the payment-history component. -/
lemma paymentHistoryScore_mono (h : RepaymentHistory) (k : Nat)
    (hb : paymentBucket (totalPayments (bumpHistory h k)) =
      paymentBucket (totalPayments h)) :
    paymentHistoryScore h ≤ paymentHistoryScore (bumpHistory h k) := by
  have htot := totalPayments_bump h k
  have hon : (bumpHistory h k).on_time_payments = h.on_time_payments + k := rfl
  unfold paymentHistoryScore
  rw [htot, hon]
  rcases Nat.eq_zero_or_pos (totalPayments h) with hz | hp
  · rw [hz]
    have hon0 : h.on_time_payments = 0 := by
      unfold totalPayments at hz; omega
    rcases Nat.eq_zero_or_pos k with hk | hk
    · simp [hk]
    · have hne : (0 : Nat) + k ≠ 0 := by omega
      rw [if_pos rfl, if_neg hne, hon0]
      exact mul_nonneg (div_nonneg (Nat.cast_nonneg _) (Nat.cast_nonneg _))
        (maxPaymentScore_nonneg _)
  · have hne : totalPayments h ≠ 0 := by omega
    have hne2 : totalPayments h + k ≠ 0 := by omega
    rw [if_neg hne, if_neg hne2]
    have hM : maxPaymentScore (totalPayments h + k) = maxPaymentScore (totalPayments h) := by
      have hMc := maxPaymentScore_congr hb
      rwa [htot] at hMc
    rw [hM]
    apply mul_le_mul_of_nonneg_right _ (maxPaymentScore_nonneg _)
    have hT : (0 : Rat) < (totalPayments h : Rat) := by
      exact_mod_cast hp
    have hTk : (0 : Rat) < ((totalPayments h + k : Nat) : Rat) := by
      exact_mod_cast Nat.lt_of_lt_of_le hp (Nat.le_add_right _ _)
    rw [div_le_div_iff₀ hT hTk]
    have hon_le : h.on_time_payments ≤ totalPayments h := by
      unfold totalPayments; omega
    have hcast : (h.on_time_payments : Rat) ≤ (totalPayments h : Rat) := by
      exact_mod_cast hon_le
    have hk0 : (0 : Rat) ≤ (k : Rat) := Nat.cast_nonneg _
    push_cast
    nlinarith [hcast, hk0]

end LoanAI

namespace LoanAI

/-- C1: for every valid ApplicationRecord the credit score lies in the
closed interval `[300, 850]`; an extreme negative record (only defaults
and write-offs) is clamped at 300, and an extreme positive record (long
history, all on-time payments, low utilization) approaches 850. -/
theorem credit_score_bounds :
    (∀ r : ApplicationRecord, ValidRecord r →
      300 ≤ creditScore r ∧ creditScore r ≤ 850) ∧
    creditScore extremeBadRecord = 300 ∧
    780 ≤ creditScore extremeGoodRecord := by
  refine ⟨fun r _ => clampScore_mem (rawCreditScore r), ?_, ?_⟩
  · norm_num [creditScore, rawCreditScore, clampScore, historyScore, paymentHistoryScore,
      maxPaymentScore, latePenalty, utilizationScore, inquiryPenalty, defaultPenalty,
      writeOffPenalty, totalPayments, extremeBadRecord, baseRecord]
  · norm_num [creditScore, rawCreditScore, clampScore, historyScore, paymentHistoryScore,
      maxPaymentScore, latePenalty, utilizationScore, inquiryPenalty, defaultPenalty,
      writeOffPenalty, totalPayments, extremeGoodRecord, baseRecord]

/-- Witness for C1: the baseline record is valid and its credit score lies
in `[300, 850]`. -/
theorem credit_score_bounds_witness :
    300 ≤ creditScore baseRecord ∧ creditScore baseRecord ≤ 850 :=
  credit_score_bounds.1 baseRecord (by decide)

/-- C2: the credit tier matches the score via the fixed breakpoint table
with no off-by-one at the boundaries; in particular a score of 750 maps to
Excellent and a score of 749 maps to Very Good. -/
theorem credit_tier_breakpoints :
    (∀ s : Rat,
      (creditTier s = .excellent ↔ 750 ≤ s) ∧
      (creditTier s = .veryGood ↔ 700 ≤ s ∧ s < 750) ∧
      (creditTier s = .good ↔ 650 ≤ s ∧ s < 700) ∧
      (creditTier s = .fair ↔ 600 ≤ s ∧ s < 650) ∧
      (creditTier s = .poor ↔ 550 ≤ s ∧ s < 600) ∧
      (creditTier s = .veryPoor ↔ s < 550)) ∧
    creditTier 750 = .excellent ∧ creditTier 749 = .veryGood := by
  refine ⟨fun s => ?_, by norm_num [creditTier], by norm_num [creditTier]⟩
  unfold creditTier
  split_ifs with h1 h2 h3 h4 h5 <;>
    refine ⟨?_, ?_, ?_, ?_, ?_, ?_⟩ <;>
    constructor <;> intro hh <;>
    first
      | rfl
      | linarith
      | exact ⟨by linarith, by linarith⟩
      | cases hh

/-- Witness for C2: the tier characterization applied at a concrete score
(the documentation's rejected example: score 485 is Very Poor). -/
theorem credit_tier_breakpoints_witness :
    creditTier 485 = .veryPoor :=
  (credit_tier_breakpoints.1 485).2.2.2.2.2.mpr (by norm_num)

/-- C3: the rule-based pipeline is deterministic: two calls to `evaluate`
on the same ApplicationRecord yield identical DecisionResult values (the
embedding is a pure function of the record; there is no time, randomness
or hidden state in the rule-based path). -/
theorem evaluate_deterministic :
    ∀ r1 r2 : ApplicationRecord, r1 = r2 → evaluate r1 = evaluate r2 :=
  fun _ _ h => congrArg evaluate h

/-- Witness for C3: two calls on the baseline record agree. -/
theorem evaluate_deterministic_witness :
    evaluate baseRecord = evaluate baseRecord :=
  evaluate_deterministic baseRecord baseRecord rfl

/-- C4: a valid record with zero monthly income always evaluates (the
pipeline is a total function) to a rejection whose rejection reasons cite
unverifiable income. -/
theorem zero_income_rejected :
    ∀ r : ApplicationRecord, ValidRecord r → r.monthly_income = 0 →
      (evaluate r).final_decision = .rejected ∧
      "Income not verifiable" ∈ (evaluate r).rejection_reasons := by
  intro r hv h0
  simp [evaluate, loanDecisionStage, h0]

/-- Witness for C4: the concrete zero-income record is valid and is
rejected with the unverifiable-income reason. -/
theorem zero_income_rejected_witness :
    ValidRecord zeroIncomeRecord ∧
    ((evaluate zeroIncomeRecord).final_decision = .rejected ∧
      "Income not verifiable" ∈ (evaluate zeroIncomeRecord).rejection_reasons) :=
  ⟨by decide, zero_income_rejected zeroIncomeRecord (by decide) rfl⟩

/-- C5: a record with zero total payments (new credit) gets a neutral
payment-history component of 0 — no division by zero occurs since the
stage branches before dividing — and the substitution is recorded in the
stage rationale; the stage always completes (it is a total function). -/
theorem zero_payments_neutral :
    ∀ r : ApplicationRecord, totalPayments r.repayment = 0 →
      (creditScoringStage r).payment_history_score = 0 ∧
      "No payment history; neutral payment score applied" ∈
        (creditScoringStage r).rationale := by
  intro r h0
  simp [creditScoringStage, paymentHistoryScore, h0]

/-- Witness for C5: the concrete no-history record gets the neutral
component and the recorded note. -/
theorem zero_payments_neutral_witness :
    (creditScoringStage zeroPaymentsRecord).payment_history_score = 0 ∧
    "No payment history; neutral payment score applied" ∈
      (creditScoringStage zeroPaymentsRecord).rationale :=
  zero_payments_neutral zeroPaymentsRecord rfl

/-- C7: the utilization component is a monotonically decreasing step
function of utilization: a larger utilization never gets a larger
component, the best contribution (60 points) is attained exactly below 10
percent, and beyond 70 percent the contribution is negative. -/
theorem utilization_component_monotone :
    (∀ u1 u2 : Rat, u1 ≤ u2 → utilizationScore u2 ≤ utilizationScore u1) ∧
    (∀ u : Rat, u < 10 → utilizationScore u = 60) ∧
    (∀ u : Rat, utilizationScore u ≤ 60) ∧
    (∀ u : Rat, 70 ≤ u → utilizationScore u < 0) := by
  refine ⟨fun u1 u2 h => ?_, fun u h => ?_, fun u => ?_, fun u h => ?_⟩ <;>
    unfold utilizationScore <;>
    split_ifs <;> first | rfl | linarith

/-- C6 counterexample: increasing `on_time_payments` by one, all other
fields fixed, strictly decreases the credit score when the total payment
count crosses the 69-to-70 bucket boundary (the late penalty per late
payment jumps from 10 to 12 there, outweighing the ratio gain): 67 on-time
with 2 late scores 50590/69 ≈ 733.2, while 68 on-time with 2 late scores
5105/7 ≈ 729.3. -/
theorem on_time_increase_can_decrease_score :
    recordOnTime68.repayment.on_time_payments =
      recordOnTime67.repayment.on_time_payments + 1 ∧
    recordOnTime68.repayment.late_payments = recordOnTime67.repayment.late_payments ∧
    recordOnTime68.repayment.defaults = recordOnTime67.repayment.defaults ∧
    recordOnTime68.repayment.write_offs = recordOnTime67.repayment.write_offs ∧
    ValidRecord recordOnTime67 ∧ ValidRecord recordOnTime68 ∧
    creditScore recordOnTime68 < creditScore recordOnTime67 := by
  refine ⟨rfl, rfl, rfl, rfl, by decide, by decide, ?_⟩
  norm_num [creditScore, rawCreditScore, clampScore, historyScore, paymentHistoryScore,
    maxPaymentScore, latePenalty, utilizationScore, inquiryPenalty, defaultPenalty,
    writeOffPenalty, totalPayments, recordOnTime67, recordOnTime68, baseRecord]

/-- C6 amended: holding all other fields fixed, increasing
`on_time_payments` never decreases the credit score as long as the total
payment count stays in the same bucket of the payment-history parameters
(under 40, 40–69, or 70 and more total payments). -/
theorem on_time_increase_monotone_within_bucket :
    ∀ (r : ApplicationRecord) (k : Nat),
      paymentBucket (totalPayments (bumpOnTime r k).repayment) =
        paymentBucket (totalPayments r.repayment) →
      creditScore r ≤ creditScore (bumpOnTime r k) := by
  intro r k hb
  have hrep : (bumpOnTime r k).repayment = bumpHistory r.repayment k := rfl
  rw [hrep] at hb
  apply clampScore_mono
  have hpay := paymentHistoryScore_mono r.repayment k hb
  have hlate : latePenalty (totalPayments (bumpHistory r.repayment k))
      (bumpHistory r.repayment k).late_payments =
      latePenalty (totalPayments r.repayment) r.repayment.late_payments :=
    latePenalty_congr hb _
  unfold rawCreditScore
  simp only [bumpOnTime, bumpHistory] at hpay hlate ⊢
  linarith [hpay, hlate.le, hlate.ge]

/-- Witness for C6 amended: one more on-time payment inside the 40–69
bucket does not decrease a concrete record's score. -/
theorem on_time_increase_monotone_within_bucket_witness :
    paymentBucket (totalPayments (bumpOnTime recordMidBucket 1).repayment) =
      paymentBucket (totalPayments recordMidBucket.repayment) ∧
    creditScore recordMidBucket ≤ creditScore (bumpOnTime recordMidBucket 1) :=
  ⟨by decide, on_time_increase_monotone_within_bucket recordMidBucket 1 (by decide)⟩

/-- Witness for C7: instantiation at concrete utilization values. -/
theorem utilization_component_monotone_witness :
    utilizationScore 55 ≤ utilizationScore 25 ∧
    utilizationScore 5 = 60 ∧
    utilizationScore 95 ≤ 60 ∧
    utilizationScore 80 < 0 :=
  ⟨utilization_component_monotone.1 25 55 (by norm_num),
   utilization_component_monotone.2.1 5 (by norm_num),
   utilization_component_monotone.2.2.1 95,
   utilization_component_monotone.2.2.2 80 (by norm_num)⟩

/-- The risk accumulator's score component adds the increment exactly when
the condition holds. -/
lemma riskStep_fst (cond : Prop) [Decidable cond] (inc : Nat) (f : String)
    (acc : Nat × List String) :
    (riskStep cond inc f acc).1 = acc.1 + (if cond then inc else 0) := by
  unfold riskStep
  split_ifs <;> simp

/-- The risk-level breakpoints characterized as intervals. -/
lemma riskLevelOf_iff (s : Nat) :
    (riskLevelOf s = .low ↔ s < 30) ∧
    (riskLevelOf s = .medium ↔ 30 ≤ s ∧ s < 60) ∧
    (riskLevelOf s = .high ↔ 60 ≤ s) := by
  unfold riskLevelOf
  split_ifs <;> refine ⟨?_, ?_, ?_⟩ <;> constructor <;> intro hh <;>
    first
      | rfl
      | omega
      | exact ⟨by omega, by omega⟩
      | (exfalso; omega)
      | cases hh

/-- C8: the Risk Monitoring Stage computes the risk score as an additive
sum starting at 0 with fixed increments for each factor — score below the
rejection threshold, utilization above 80 percent, 20 per default, 30 (a
larger increment) per write-off, a verification status other than
verified, and a high inquiry count — capped so that the result lies in
`[0, 100]`, and the risk level is exactly the fixed-breakpoint
classification of the risk score (below 30 low, below 60 medium,
otherwise high). -/
theorem risk_score_additive :
    ∀ (score util : Rat) (h : RepaymentHistory) (inquiries : Nat)
      (v : VerificationStatus),
      (riskMonitoringStage score util h inquiries v).risk_score =
        min ((if score < 600 then 40 else 0) + (if 80 < util then 20 else 0) +
          20 * h.defaults + 30 * h.write_offs +
          (if v ≠ .verified then 10 else 0) +
          (if 6 < inquiries then 10 else 0)) 100 ∧
      0 ≤ (riskMonitoringStage score util h inquiries v).risk_score ∧
      (riskMonitoringStage score util h inquiries v).risk_score ≤ 100 ∧
      ((riskMonitoringStage score util h inquiries v).risk_level = .low ↔
        (riskMonitoringStage score util h inquiries v).risk_score < 30) ∧
      ((riskMonitoringStage score util h inquiries v).risk_level = .medium ↔
        30 ≤ (riskMonitoringStage score util h inquiries v).risk_score ∧
        (riskMonitoringStage score util h inquiries v).risk_score < 60) ∧
      ((riskMonitoringStage score util h inquiries v).risk_level = .high ↔
        60 ≤ (riskMonitoringStage score util h inquiries v).risk_score) := by
  intro score util h inq v
  have hclosed : (riskMonitoringStage score util h inq v).risk_score =
      min ((if score < 600 then 40 else 0) + (if 80 < util then 20 else 0) +
        20 * h.defaults + 30 * h.write_offs +
        (if v ≠ .verified then 10 else 0) +
        (if 6 < inq then 10 else 0)) 100 := by
    have hrs : (riskMonitoringStage score util h inq v).risk_score =
        min ((riskStep (6 < inq) 10 "High number of recent inquiries"
          (riskStep (v ≠ .verified) 10 "Applicant data not fully verified"
          (riskStep (0 < h.write_offs) (30 * h.write_offs) "Loan write-offs on record"
          (riskStep (0 < h.defaults) (20 * h.defaults) "Payment defaults on record"
          (riskStep (80 < util) 20 "High credit utilization"
          (riskStep (score < 600) 40 "Credit score below 600" (0, []))))))).1) 100 := rfl
    rw [hrs, riskStep_fst, riskStep_fst, riskStep_fst, riskStep_fst, riskStep_fst,
      riskStep_fst]
    simp only [Nat.zero_add]
    split_ifs <;> omega
  have hlevel : (riskMonitoringStage score util h inq v).risk_level =
      riskLevelOf (riskMonitoringStage score util h inq v).risk_score := rfl
  refine ⟨hclosed, Nat.zero_le _, ?_, ?_, ?_, ?_⟩
  · rw [hclosed]; omega
  · rw [hlevel]; exact (riskLevelOf_iff _).1
  · rw [hlevel]; exact (riskLevelOf_iff _).2.1
  · rw [hlevel]; exact (riskLevelOf_iff _).2.2

/-- Witness for C8: the closed form at a concrete high-risk input. -/
theorem risk_score_additive_witness :
    (riskMonitoringStage 485 85 extremeBadRecord.repayment 0 .pending).risk_score =
      min ((if (485 : Rat) < 600 then 40 else 0) + (if (80 : Rat) < 85 then 20 else 0) +
        20 * extremeBadRecord.repayment.defaults +
        30 * extremeBadRecord.repayment.write_offs +
        (if VerificationStatus.pending ≠ .verified then 10 else 0) +
        (if 6 < 0 then 10 else 0)) 100 :=
  (risk_score_additive 485 85 extremeBadRecord.repayment 0 .pending).1

/-- A conditional outcome of the Loan Decision Stage always comes from the
conditional branch: the amount is three fifths of the requested amount and
the conditions list is the non-empty literal list. -/
lemma loanDecision_conditional_shape (r : ApplicationRecord) (s : Rat)
    (hamt : 0 < r.loan_amount_requested)
    (hc : (loanDecisionStage r s).final_decision = .conditional) :
    (loanDecisionStage r s).approved_amount < r.loan_amount_requested ∧
    (loanDecisionStage r s).conditions ≠ [] := by
  simp only [loanDecisionStage] at hc ⊢
  by_cases h0 : r.monthly_income = 0
  · rw [if_pos h0] at hc; exact absurd hc (by simp)
  · rw [if_neg h0] at hc ⊢
    by_cases h1 : 1 / 2 < estimatedMonthlyPayment r / r.monthly_income
    · rw [if_pos h1] at hc; exact absurd hc (by simp)
    · rw [if_neg h1] at hc ⊢
      by_cases h2 : r.employment_status = .unemployed ∧ 10000 < r.loan_amount_requested
      · rw [if_pos h2] at hc; exact absurd hc (by simp)
      · rw [if_neg h2] at hc ⊢
        by_cases h3 : 700 ≤ s ∧ estimatedMonthlyPayment r / r.monthly_income < 7 / 20
        · rw [if_pos h3] at hc; exact absurd hc (by simp)
        · rw [if_neg h3] at hc ⊢
          by_cases h4 : 650 ≤ s ∧ estimatedMonthlyPayment r / r.monthly_income < 9 / 20
          · rw [if_pos h4] at hc; exact absurd hc (by simp)
          · rw [if_neg h4] at hc ⊢
            by_cases h5 : 550 ≤ s
            · rw [if_pos h5]
              refine ⟨?_, by simp⟩
              show 3 / 5 * r.loan_amount_requested < r.loan_amount_requested
              linarith
            · rw [if_neg h5] at hc; exact absurd hc (by simp)

/-- A rejected outcome of the Loan Decision Stage always carries amount 0
and no interest rate, in every rejecting branch. -/
lemma loanDecision_rejected_shape (r : ApplicationRecord) (s : Rat)
    (hrej : (loanDecisionStage r s).final_decision = .rejected) :
    (loanDecisionStage r s).approved_amount = 0 ∧
    (loanDecisionStage r s).interest_rate = none := by
  simp only [loanDecisionStage] at hrej ⊢
  by_cases h0 : r.monthly_income = 0
  · rw [if_pos h0]; exact ⟨rfl, rfl⟩
  · rw [if_neg h0] at hrej ⊢
    by_cases h1 : 1 / 2 < estimatedMonthlyPayment r / r.monthly_income
    · rw [if_pos h1]; exact ⟨rfl, rfl⟩
    · rw [if_neg h1] at hrej ⊢
      by_cases h2 : r.employment_status = .unemployed ∧ 10000 < r.loan_amount_requested
      · rw [if_pos h2]; exact ⟨rfl, rfl⟩
      · rw [if_neg h2] at hrej ⊢
        by_cases h3 : 700 ≤ s ∧ estimatedMonthlyPayment r / r.monthly_income < 7 / 20
        · rw [if_pos h3] at hrej; exact absurd hrej (by simp)
        · rw [if_neg h3] at hrej ⊢
          by_cases h4 : 650 ≤ s ∧ estimatedMonthlyPayment r / r.monthly_income < 9 / 20
          · rw [if_pos h4] at hrej; exact absurd hrej (by simp)
          · rw [if_neg h4] at hrej ⊢
            by_cases h5 : 550 ≤ s
            · rw [if_pos h5] at hrej; exact absurd hrej (by simp)
            · rw [if_neg h5]; exact ⟨rfl, rfl⟩

/-- C9: whenever an evaluation of a valid record yields a conditional
decision, the approved amount is strictly smaller than the requested
amount and the conditions list is non-empty. -/
theorem conditional_reduced_amount :
    ∀ r : ApplicationRecord, ValidRecord r →
      (evaluate r).final_decision = .conditional →
      (evaluate r).approved_amount < r.loan_amount_requested ∧
      (evaluate r).conditions ≠ [] := by
  intro r hv hc
  obtain ⟨-, -, -, hamt, -⟩ := hv
  exact loanDecision_conditional_shape r
    (creditScoringStage r).calculated_credit_score hamt hc

/-- Witness for C9: a concrete borderline record is valid, evaluates to a
conditional decision, and gets a strictly reduced amount with non-empty
conditions. -/
theorem conditional_reduced_amount_witness :
    (evaluate conditionalRecord).approved_amount <
      conditionalRecord.loan_amount_requested ∧
    (evaluate conditionalRecord).conditions ≠ [] :=
  conditional_reduced_amount conditionalRecord (by decide) (by
    norm_num [evaluate, creditScoringStage, loanDecisionStage, estimatedMonthlyPayment,
      creditScore, rawCreditScore, clampScore, historyScore, paymentHistoryScore,
      maxPaymentScore, latePenalty, utilizationScore, inquiryPenalty, defaultPenalty,
      writeOffPenalty, totalPayments, conditionalRecord, baseRecord]
    decide)

/-- C10: every evaluation carries the results of all four stages in the
final DecisionResult — the stage outputs are exactly the four stage
functions applied, so the pipeline never terminates early — and a
rejected evaluation has approved amount 0 and no interest rate. -/
theorem pipeline_full_outputs :
    ∀ r : ApplicationRecord,
      (evaluate r).credit_output = creditScoringStage r ∧
      (evaluate r).loan_output =
        loanDecisionStage r (creditScoringStage r).calculated_credit_score ∧
      (evaluate r).verification_output = verificationStage r ∧
      (evaluate r).risk_output =
        riskMonitoringStage (creditScoringStage r).calculated_credit_score
          r.credit_utilization_percent r.repayment r.recent_credit_inquiries_6m
          (verificationStage r).status ∧
      ((evaluate r).final_decision = .rejected →
        (evaluate r).approved_amount = 0 ∧ (evaluate r).interest_rate = none) := by
  intro r
  refine ⟨rfl, rfl, rfl, rfl, ?_⟩
  intro hrej
  exact loanDecision_rejected_shape r
    (creditScoringStage r).calculated_credit_score hrej

/-- Witness for C10: the zero-income record is rejected and its result has
amount 0 and no interest rate. -/
theorem pipeline_full_outputs_witness :
    (evaluate zeroIncomeRecord).approved_amount = 0 ∧
    (evaluate zeroIncomeRecord).interest_rate = none :=
  (pipeline_full_outputs zeroIncomeRecord).2.2.2.2 (by decide)

end LoanAI
